import Mathlib

/-!
Shallow embedding of src/dev.js (class DevToolsProtection): the belief
state, the DOM-level responder effects, the heuristic probes and the
input event handlers, modelled as pure state transformers.  DOM node
multiplicity for the nodes with the fixed ids devtools-overlay and
active-protection-style is tracked as Nat counts; body inline styles as
strings; timer handles as presence booleans.  Console output and the
toast animation are not observable by any claim and are omitted; the
5000ms timeout inside handleDevToolsDetected has a fully commented-out
body in the source and is omitted as a no-op.
-/

/-- Mutable state of the DevToolsProtection instance together with the
document pieces it touches. -/
structure ProtState where
  isDevToolsOpen : Bool
  protectionActive : Bool
  warningShown : Bool
  consoleSpamInterval : Bool
  recheckPending : Bool
  overlayCount : Nat
  activeStyleCount : Nat
  bodyClassProtection : Bool
  bodyFilter : String
  bodyOpacity : String
  bodyPointerEvents : String
deriving Repr, DecidableEq

/-- State at page load: constructor sets all flags false, no injected
nodes, empty inline styles. -/
def initState : ProtState :=
  { isDevToolsOpen := false, protectionActive := false, warningShown := false,
    consoleSpamInterval := false, recheckPending := false,
    overlayCount := 0, activeStyleCount := 0, bodyClassProtection := false,
    bodyFilter := "", bodyOpacity := "", bodyPointerEvents := "" }

/-- startConsoleSpam (src/dev.js lines 388-414): if the interval handle is
already set, return; otherwise install the repeating task. -/
def startConsoleSpam (s : ProtState) : ProtState :=
  if s.consoleSpamInterval then s else { s with consoleSpamInterval := true }

/-- The consoleSpamInterval-clearing fragment of deactivateProtection
(src/dev.js lines 374-378): clear the handle when present, else nothing. -/
def stopConsoleSpam (s : ProtState) : ProtState :=
  if s.consoleSpamInterval then { s with consoleSpamInterval := false } else s

/-- applyVisualRestrictions (src/dev.js lines 329-355): unconditionally
appends a style node with id active-protection-style to the head. -/
def applyVisualRestrictions (s : ProtState) : ProtState :=
  { s with activeStyleCount := s.activeStyleCount + 1 }

/-- activateProtection (src/dev.js lines 313-327): guarded on the
protectionActive flag; adds the protection-active body class, starts the
console spam task and injects the active-protection style. -/
def activateProtection (s : ProtState) : ProtState :=
  if s.protectionActive then s
  else
    applyVisualRestrictions (startConsoleSpam
      { s with protectionActive := true, bodyClassProtection := true })

/-- showProtectionOverlay (src/dev.js lines 439-520): getElementById on the
fixed id devtools-overlay; if a node exists, return without creating a
second one, else append one overlay node to the body. -/
def showProtectionOverlay (s : ProtState) : ProtState :=
  if s.overlayCount > 0 then s else { s with overlayCount := s.overlayCount + 1 }

/-- handleDevToolsDetected (src/dev.js lines 416-437): the single detection
entry point.  Early-returns while the belief state is already open;
otherwise sets belief open, activates protection, shows the overlay and
applies the blur, opacity and pointer-events inline styles to the body. -/
def handleDevToolsDetected (s : ProtState) : ProtState :=
  if s.isDevToolsOpen then s
  else
    { showProtectionOverlay (activateProtection { s with isDevToolsOpen := true }) with
        bodyFilter := "blur(8px)", bodyOpacity := "0.3", bodyPointerEvents := "none" }

/-- deactivateProtection (src/dev.js lines 357-386): clears both flags,
removes the protection-active body class, removes the
active-protection-style node and the devtools-overlay node when present
(getElementById returns one node; remove deletes that one node), clears
the console spam interval and resets the three body inline styles. -/
def deactivateProtection (s : ProtState) : ProtState :=
  { s with isDevToolsOpen := false, protectionActive := false,
           bodyClassProtection := false,
           activeStyleCount := s.activeStyleCount - 1,
           overlayCount := s.overlayCount - 1,
           consoleSpamInterval := false,
           bodyFilter := "", bodyOpacity := "", bodyPointerEvents := "" }

/-- detectByWindowSize (src/dev.js lines 169-182): hDiff and wDiff are the
measured outer minus inner window dimensions at the probe tick.  A gap
above 150 while belief is closed reports detection; a gap below 100 in
both dimensions while belief is open calls checkIfReallyClosed, which
schedules the delayed re-check (modelled by the recheckPending flag). -/
def detectByWindowSize (hDiff wDiff : Int) (s : ProtState) : ProtState :=
  if hDiff > 150 ∨ wDiff > 150 then
    if s.isDevToolsOpen then s else handleDevToolsDetected s
  else if s.isDevToolsOpen = true ∧ hDiff < 100 ∧ wDiff < 100 then
    { s with recheckPending := true }
  else s

/-- The setTimeout callback inside checkIfReallyClosed (src/dev.js lines
238-248) firing 1000ms later: re-measures both gaps and deactivates
protection when both are below 100. -/
def checkIfReallyClosedFire (hDiff wDiff : Int) (s : ProtState) : ProtState :=
  if hDiff < 100 ∧ wDiff < 100 then deactivateProtection { s with recheckPending := false }
  else { s with recheckPending := false }

/-- detectByConsole (src/dev.js lines 184-201): opened is whether the
toString getter fired while console.log formatted the detector object. -/
def detectByConsole (opened : Bool) (s : ProtState) : ProtState :=
  if opened ∧ s.isDevToolsOpen = false then handleDevToolsDetected s else s

/-- detectByTiming (src/dev.js lines 203-211): elapsed is the measured
milliseconds across the debugger statement. -/
def detectByTiming (elapsed : Nat) (s : ProtState) : ProtState :=
  if elapsed > 100 ∧ s.isDevToolsOpen = false then handleDevToolsDetected s else s

/-- The MutationObserver callback of detectElementInspection (src/dev.js
lines 219-225) seeing an attribute mutation on the marker node. -/
def mutationObserved (s : ProtState) : ProtState :=
  handleDevToolsDetected s

/-- One tick of the console spam interval callback (src/dev.js lines
391-396): self-cancels when protection is no longer active. -/
def consoleSpamTick (s : ProtState) : ProtState :=
  if s.protectionActive then s else { s with consoleSpamInterval := false }

/-- A keyboard event as read by the keydown handler. -/
structure KeyEvent where
  key : String
  ctrlKey : Bool
  shiftKey : Bool
  metaKey : Bool
  altKey : Bool
deriving Repr, DecidableEq

/-- The blocked predicate of the keydown listener (src/dev.js lines
74-120): F12, Ctrl+Shift+I/J/C/K/E/S, Ctrl+U, Meta+Alt+I. -/
def keydownBlocked (e : KeyEvent) : Bool :=
  e.key == "F12"
  || (e.ctrlKey && e.shiftKey && e.key == "I")
  || (e.ctrlKey && e.shiftKey && e.key == "J")
  || (e.ctrlKey && e.shiftKey && e.key == "C")
  || (e.ctrlKey && e.key == "u")
  || (e.ctrlKey && e.shiftKey && e.key == "K")
  || (e.ctrlKey && e.shiftKey && e.key == "E")
  || (e.ctrlKey && e.shiftKey && e.key == "S")
  || (e.metaKey && e.altKey && e.key == "I")

/-- The keydown capture listener (src/dev.js lines 74-127).  Result is the
pair of the event defaultPrevented flag and the new state. -/
def keydownHandler (e : KeyEvent) (s : ProtState) : Bool × ProtState :=
  if keydownBlocked e then (true, handleDevToolsDetected s) else (false, s)

/-- The contextmenu capture listener (src/dev.js lines 130-135): always
prevents default and reports detection. -/
def contextmenuHandler (s : ProtState) : Bool × ProtState :=
  (true, handleDevToolsDetected s)

/-- The mousedown capture listener of disableAllDevToolsAccess (src/dev.js
lines 138-143): prevents default on the middle button (button 1) and
does nothing else. -/
def mousedownHandler (button : Nat) (s : ProtState) : Bool × ProtState :=
  if button = 1 then (true, s) else (false, s)

/-- The dragstart listener (src/dev.js lines 569-574): prevents default
when protection is active or the target is an IMG element. -/
def dragstartHandler (targetTag : String) (s : ProtState) : Bool × ProtState :=
  if s.protectionActive || targetTag == "IMG" then (true, s) else (false, s)

/-- The copy listener (src/dev.js lines 577-583).  Result is the
defaultPrevented flag, the clipboard payload written via setData when
any, and the new state. -/
def copyHandler (s : ProtState) : Bool × Option String × ProtState :=
  if s.protectionActive then (true, some ("Copying disabled"), s)
  else (false, none, s)

/-- showWarning (src/dev.js lines 605-650): guarded on warningShown; the
toast node and its 4000ms removal timer are not observable by any claim
and are omitted beyond the flag. -/
def showWarning (s : ProtState) : ProtState :=
  if s.warningShown then s else { s with warningShown := true }

/-- The beforeprint listener (src/dev.js lines 586-590): prevents default
and shows the warning toast; it does not report detection. -/
def beforeprintHandler (s : ProtState) : Bool × ProtState :=
  (true, showWarning s)

/-- The keyup listener (src/dev.js lines 593-602): on PrintScreen it
reports detection and attempts a clipboard write, but never calls
preventDefault, so the first component is always false. -/
def keyupHandler (key : String) (s : ProtState) : Bool × ProtState :=
  if key == "PrintScreen" then (false, handleDevToolsDetected s) else (false, s)

/-- The callbacks that can fire on the single event loop.  Probe events
carry the ambient values the callback reads when it runs.  A
recheckFire event models the checkIfReallyClosed timeout firing; the
step function only lets it act when such a timeout was scheduled. -/
inductive Event where
  | keydown (e : KeyEvent)
  | contextmenu
  | mousedown (button : Nat)
  | sizeProbe (hDiff wDiff : Int)
  | recheckFire (hDiff wDiff : Int)
  | consoleProbe (opened : Bool)
  | timingProbe (elapsed : Nat)
  | mutation
  | spamTick
  | dragstart (tag : String)
  | copyEvent
  | beforeprint
  | keyup (key : String)
deriving Repr, DecidableEq

/-- One event-loop step: dispatch the fired callback on the state. -/
def step (s : ProtState) : Event → ProtState
  | Event.keydown e => (keydownHandler e s).2
  | Event.contextmenu => (contextmenuHandler s).2
  | Event.mousedown b => (mousedownHandler b s).2
  | Event.sizeProbe h w => detectByWindowSize h w s
  | Event.recheckFire h w => if s.recheckPending then checkIfReallyClosedFire h w s else s
  | Event.consoleProbe b => detectByConsole b s
  | Event.timingProbe t => detectByTiming t s
  | Event.mutation => mutationObserved s
  | Event.spamTick => consoleSpamTick s
  | Event.dragstart tag => (dragstartHandler tag s).2
  | Event.copyEvent => (copyHandler s).2.2
  | Event.beforeprint => (beforeprintHandler s).2
  | Event.keyup k => (keyupHandler k s).2

/-- Run a sequence of event-loop callbacks from a state. -/
def runEvents (s : ProtState) (es : List Event) : ProtState :=
  es.foldl step s

/-!
Class method table.  The class body of src/dev.js defines the method name
setupAdvancedProtection twice, at line 250 and at line 522.  Building the
prototype assigns methods in source order, so the later definition
overwrites the earlier one.  We record each method name with the line of
its definition and resolve lookups with last-write-wins.
-/

/-- The method names of class DevToolsProtection in source order, each
paired with the line its definition starts on. -/
def classBodyMethods : List (String × Nat) :=
  [("initImmediate", 15), ("detectExistingDevTools", 36),
   ("disableAllDevToolsAccess", 72), ("startContinuousDetection", 147),
   ("detectByWindowSize", 169), ("detectByConsole", 184),
   ("detectByTiming", 203), ("detectElementInspection", 213),
   ("checkIfReallyClosed", 238), ("setupAdvancedProtection", 250),
   ("monitorNetworkTab", 257), ("preventInspection", 271),
   ("blockCommonBypassMethods", 291), ("activateProtection", 313),
   ("applyVisualRestrictions", 329), ("deactivateProtection", 357),
   ("startConsoleSpam", 388), ("handleDevToolsDetected", 416),
   ("showProtectionOverlay", 439), ("setupAdvancedProtection", 522),
   ("setupAdvancedListeners", 567), ("showWarning", 605)]

/-- Prototype lookup: the last definition of a name in the class body is
the one a method call dispatches to. -/
def resolveMethod (name : String) : Option Nat :=
  classBodyMethods.foldl (fun acc p => if p.1 == name then some p.2 else acc) none

/-- The repeating interval tasks the script can install. -/
inductive IntervalTask where
  | windowSize
  | consoleProbe
  | timing
  | mutation
  | globalSymbol
deriving Repr, DecidableEq

/-- The interval tasks installed by the body of setupAdvancedProtection at
the given line: the line-250 body calls blockCommonBypassMethods, which
installs the 2000ms suspicious-globals interval; the line-522 body only
injects CSS and adds event listeners. -/
def setupBodyIntervalTasks (line : Nat) : List IntervalTask :=
  if line = 250 then [IntervalTask.globalSymbol] else []

/-- The interval tasks running after initImmediate: the four installed by
startContinuousDetection (src/dev.js lines 147-167) plus whatever the
resolved setupAdvancedProtection body installs. -/
def initIntervalTasks : List IntervalTask :=
  [IntervalTask.windowSize, IntervalTask.consoleProbe,
   IntervalTask.timing, IntervalTask.mutation]
  ++ (match resolveMethod ("setupAdvancedProtection") with
      | some line => setupBodyIntervalTasks line
      | none => [])

/-- Kind of a global-object property value, as far as the suspicious
variable scan can tell. -/
inductive JSValueKind where
  | callable
  | notCallable
deriving Repr, DecidableEq

/-- The fixed name list of the suspicious-globals scan (src/dev.js line
304). -/
def suspiciousVars : List String :=
  ["$", "$$", "$x", "inspect", "monitor", "debug"]

/-- The interval callback of blockCommonBypassMethods (src/dev.js lines
303-310): for each name present on the global object as a callable
value, report detection. -/
def suspiciousVarsScan (window : String → Option JSValueKind) (s : ProtState) : ProtState :=
  suspiciousVars.foldl
    (fun st v =>
      match window v with
      | some JSValueKind.callable => handleDevToolsDetected st
      | _ => st) s

/-- A global object on which the console shortcut name dollar is bound to
a function, as after evaluating code in an open console session. -/
def envConsoleOpen : String → Option JSValueKind :=
  fun n => if n == "$" then some JSValueKind.callable else none

/-!
Exception-aware models for the error-handling claim.  A fallible
primitive is modelled by a Bool saying whether this call throws; a
handler returns Except, with error meaning an exception escapes the
handler.  tryBlock is a try/catch whose catch body ignores the error.
-/

/-- A try/catch with an empty catch body: failures are swallowed. -/
def tryBlock (act : Except Unit Unit) : Except Unit Unit :=
  match act with
  | Except.ok _ => Except.ok ()
  | Except.error _ => Except.ok ()

/-- One call of a fallible primitive (clipboard write or console call). -/
def fallibleCall (fails : Bool) : Except Unit Unit :=
  if fails then Except.error () else Except.ok ()

/-- The console spam interval callback with its fallible console calls
(src/dev.js lines 391-413): everything fallible sits inside try/catch. -/
def consoleSpamTickExc (consoleFails : Bool) (s : ProtState) : Except Unit ProtState :=
  if s.protectionActive then
    match tryBlock (fallibleCall consoleFails) with
    | Except.ok _ => Except.ok s
    | Except.error e => Except.error e
  else Except.ok { s with consoleSpamInterval := false }

/-- The keyup listener with its fallible clipboard write (src/dev.js lines
593-602): the writeText call sits inside try/catch with an empty catch. -/
def keyupHandlerExc (key : String) (clipboardFails : Bool) (s : ProtState) :
    Except Unit (Bool × ProtState) :=
  if key == "PrintScreen" then
    match tryBlock (fallibleCall clipboardFails) with
    | Except.ok _ => Except.ok (false, handleDevToolsDetected s)
    | Except.error e => Except.error e
  else Except.ok (false, s)

/-- The copy listener with its fallible clipboard rewrite (src/dev.js
lines 577-583): the setData call has no try/catch around it, so a throw
escapes the handler. -/
def copyHandlerExc (setDataFails : Bool) (s : ProtState) :
    Except Unit (Bool × Option String) :=
  if s.protectionActive then
    match fallibleCall setDataFails with
    | Except.ok _ => Except.ok (true, some ("Copying disabled"))
    | Except.error e => Except.error e
  else Except.ok (false, none)

/-- Whether an Except result is a normal return. -/
def excOk {α : Type} : Except Unit α → Bool
  | Except.ok _ => true
  | Except.error _ => false

/-!
Helper lemmas.
-/

lemma handle_of_open (s : ProtState) (h : s.isDevToolsOpen = true) :
    handleDevToolsDetected s = s := by
  simp [handleDevToolsDetected, h]

lemma handle_isOpen (s : ProtState) :
    (handleDevToolsDetected s).isDevToolsOpen = true := by
  unfold handleDevToolsDetected showProtectionOverlay activateProtection
    startConsoleSpam applyVisualRestrictions
  split_ifs <;> simp_all

lemma handle_recheckPending (s : ProtState) :
    (handleDevToolsDetected s).recheckPending = s.recheckPending := by
  unfold handleDevToolsDetected showProtectionOverlay activateProtection
    startConsoleSpam applyVisualRestrictions
  split_ifs <;> simp_all

lemma handle_overlayCount (s : ProtState) :
    (handleDevToolsDetected s).overlayCount =
      if s.isDevToolsOpen then s.overlayCount
      else if s.overlayCount > 0 then s.overlayCount else s.overlayCount + 1 := by
  unfold handleDevToolsDetected showProtectionOverlay activateProtection
    startConsoleSpam applyVisualRestrictions
  split_ifs <;> simp_all

/-- The overlay singleton invariant: never more than one devtools-overlay
node, and exactly one while the belief state is open. -/
def OverlayInv (s : ProtState) : Prop :=
  s.overlayCount ≤ 1 ∧ (s.isDevToolsOpen = true → s.overlayCount = 1)

lemma overlayInv_init : OverlayInv initState := by
  constructor <;> simp [initState, OverlayInv]

lemma handle_overlayInv (s : ProtState) (h : OverlayInv s) :
    OverlayInv (handleDevToolsDetected s) ∧
      (handleDevToolsDetected s).overlayCount = 1 := by
  obtain ⟨h1, h2⟩ := h
  have hopen := handle_isOpen s
  have hov := handle_overlayCount s
  by_cases ho : s.isDevToolsOpen = true
  · have := h2 ho
    rw [handle_of_open s ho] at hopen hov ⊢
    exact ⟨⟨h1, fun _ => this⟩, this⟩
  · simp [ho] at hov
    by_cases hc : s.overlayCount > 0
    · simp [hc] at hov
      have : s.overlayCount = 1 := by omega
      rw [this] at hov
      exact ⟨⟨by omega, fun _ => hov⟩, hov⟩
    · simp [hc] at hov
      have : s.overlayCount = 0 := by omega
      rw [this] at hov
      simp at hov
      exact ⟨⟨by omega, fun _ => hov⟩, hov⟩

lemma overlayInv_step (s : ProtState) (e : Event) (h : OverlayInv s) :
    OverlayInv (step s e) := by
  obtain ⟨h1, h2⟩ := h
  cases e with
  | keydown e =>
      simp only [step, keydownHandler]
      split_ifs with hb
      · exact (handle_overlayInv s ⟨h1, h2⟩).1
      · exact ⟨h1, h2⟩
  | contextmenu =>
      exact (handle_overlayInv s ⟨h1, h2⟩).1
  | mousedown b =>
      simp only [step, mousedownHandler]
      split_ifs <;> exact ⟨h1, h2⟩
  | sizeProbe hd wd =>
      simp only [step, detectByWindowSize]
      split_ifs with hA hB hC
      · exact ⟨h1, h2⟩
      · exact (handle_overlayInv s ⟨h1, h2⟩).1
      · exact ⟨h1, fun hh => h2 (by simpa using hh)⟩
      · exact ⟨h1, h2⟩
  | recheckFire hd wd =>
      simp only [step, checkIfReallyClosedFire]
      split_ifs with hp hs
      · exact ⟨by simp [deactivateProtection]; omega, by simp [deactivateProtection]⟩
      · exact ⟨h1, fun hh => h2 (by simpa using hh)⟩
      · exact ⟨h1, h2⟩
  | consoleProbe b =>
      simp only [step, detectByConsole]
      split_ifs with hb
      · exact (handle_overlayInv s ⟨h1, h2⟩).1
      · exact ⟨h1, h2⟩
  | timingProbe t =>
      simp only [step, detectByTiming]
      split_ifs with hb
      · exact (handle_overlayInv s ⟨h1, h2⟩).1
      · exact ⟨h1, h2⟩
  | mutation =>
      exact (handle_overlayInv s ⟨h1, h2⟩).1
  | spamTick =>
      simp only [step, consoleSpamTick]
      split_ifs <;> exact ⟨h1, fun hh => h2 (by simpa using hh)⟩
  | dragstart tag =>
      simp only [step, dragstartHandler]
      split_ifs <;> exact ⟨h1, h2⟩
  | copyEvent =>
      simp only [step, copyHandler]
      split_ifs <;> exact ⟨h1, h2⟩
  | beforeprint =>
      simp only [step, beforeprintHandler, showWarning]
      split_ifs <;> exact ⟨h1, fun hh => h2 (by simpa using hh)⟩
  | keyup k =>
      simp only [step, keyupHandler]
      split_ifs with hk
      · exact (handle_overlayInv s ⟨h1, h2⟩).1
      · exact ⟨h1, h2⟩

lemma overlayInv_runEvents (s : ProtState) (es : List Event) (h : OverlayInv s) :
    OverlayInv (runEvents s es) := by
  induction es generalizing s with
  | nil => exact h
  | cons e es ih =>
      exact ih (step s e) (overlayInv_step s e h)

lemma runEvents_concat (s : ProtState) (es : List Event) (e : Event) :
    runEvents s (es ++ [e]) = step (runEvents s es) e := by
  simp [runEvents, List.foldl_append]

lemma handle_styles (s : ProtState) (ho : s.isDevToolsOpen = false) :
    (handleDevToolsDetected s).bodyFilter = "blur(8px)"
    ∧ (handleDevToolsDetected s).bodyOpacity = "0.3"
    ∧ (handleDevToolsDetected s).bodyPointerEvents = "none" := by
  simp [handleDevToolsDetected, ho]

/-- The state right after a detection from the initial state, with a
re-check scheduled: a representative Detected state. -/
def detectedState : ProtState :=
  { isDevToolsOpen := true, protectionActive := true, warningShown := false,
    consoleSpamInterval := true, recheckPending := true,
    overlayCount := 1, activeStyleCount := 1, bodyClassProtection := true,
    bodyFilter := "blur(8px)", bodyOpacity := "0.3", bodyPointerEvents := "none" }

/-- The F12 key event with no modifiers. -/
def keyF12 : KeyEvent :=
  { key := "F12", ctrlKey := false, shiftKey := false, metaKey := false, altKey := false }

/-!
Claim theorems.
-/

/-- C1 counterexample: a middle-button mousedown is a gesture the
interception layer suppresses, yet handling it from the idle state only
cancels the default action and never reports a detection event: the
belief state stays closed, refuting the claim that every suppressed
gesture does both. -/
theorem C1_counterexample :
    (mousedownHandler 1 initState).1 = true
    ∧ ((mousedownHandler 1 initState).2).isDevToolsOpen = false := by
  exact ⟨rfl, rfl⟩

/-- C1 amended: blocked keyboard shortcuts and context clicks cancel the
default action and report detection; middle clicks and drag starts
(including image drag starts) cancel the default action and leave the
state unchanged; copy requests while protection is active cancel the
default action without reporting detection; print requests cancel the
default action and at most show a warning, never changing belief state;
PrintScreen reports detection without cancelling the default action. -/
theorem C1_amended_gestures :
    (∀ (e : KeyEvent) (s : ProtState), keydownBlocked e = true →
        (keydownHandler e s).1 = true ∧ ((keydownHandler e s).2).isDevToolsOpen = true)
    ∧ (∀ s : ProtState, (contextmenuHandler s).1 = true
        ∧ ((contextmenuHandler s).2).isDevToolsOpen = true)
    ∧ (∀ s : ProtState, (mousedownHandler 1 s).1 = true ∧ (mousedownHandler 1 s).2 = s)
    ∧ (∀ (s : ProtState) (tag : String), (dragstartHandler tag s).2 = s
        ∧ (dragstartHandler ("IMG") s).1 = true)
    ∧ (∀ s : ProtState, s.protectionActive = true →
        (copyHandler s).1 = true ∧ (copyHandler s).2.2 = s)
    ∧ (∀ s : ProtState, (beforeprintHandler s).1 = true
        ∧ ((beforeprintHandler s).2).isDevToolsOpen = s.isDevToolsOpen)
    ∧ (∀ s : ProtState, (keyupHandler ("PrintScreen") s).1 = false
        ∧ ((keyupHandler ("PrintScreen") s).2).isDevToolsOpen = true) := by
  refine ⟨?_, ?_, ?_, ?_, ?_, ?_, ?_⟩
  · intro e s hb
    simp [keydownHandler, hb, handle_isOpen]
  · intro s
    exact ⟨rfl, handle_isOpen s⟩
  · intro s
    exact ⟨rfl, rfl⟩
  · intro s tag
    constructor
    · simp only [dragstartHandler]
      split_ifs <;> rfl
    · simp only [dragstartHandler]
      split_ifs with h
      · rfl
      · simp at h
  · intro s h
    simp [copyHandler, h]
  · intro s
    constructor
    · rfl
    · simp only [beforeprintHandler, showWarning]
      split_ifs <;> rfl
  · intro s
    constructor
    · simp [keyupHandler]
    · simp [keyupHandler, handle_isOpen]

/-- C1 witness: the F12 keydown from the idle state is both
default-prevented and reported as a detection. -/
theorem C1_witness :
    (keydownHandler keyF12 initState).1 = true
    ∧ ((keydownHandler keyF12 initState).2).isDevToolsOpen = true :=
  C1_amended_gestures.1 keyF12 initState (by decide)

/-- C5: the deactivation path removes the overlay node, removes the
active-protection style node, resets the body inline filter, opacity and
pointer-events styles to empty, cancels the console-spam task, and sets
both the belief state and the protection-active flag to false, for any
state respecting the singleton node bounds. -/
theorem C5_deactivation_clears_all :
    ∀ s : ProtState, s.overlayCount ≤ 1 → s.activeStyleCount ≤ 1 →
      (deactivateProtection s).overlayCount = 0
      ∧ (deactivateProtection s).activeStyleCount = 0
      ∧ (deactivateProtection s).bodyFilter = ""
      ∧ (deactivateProtection s).bodyOpacity = ""
      ∧ (deactivateProtection s).bodyPointerEvents = ""
      ∧ (deactivateProtection s).consoleSpamInterval = false
      ∧ (deactivateProtection s).isDevToolsOpen = false
      ∧ (deactivateProtection s).protectionActive = false := by
  intro s h1 h2
  refine ⟨?_, ?_, rfl, rfl, rfl, rfl, rfl, rfl⟩
  · simp only [deactivateProtection]
    omega
  · simp only [deactivateProtection]
    omega

/-- C5 witness: instantiation at a representative Detected state. -/
theorem C5_witness :
    (deactivateProtection detectedState).overlayCount = 0
    ∧ (deactivateProtection detectedState).activeStyleCount = 0
    ∧ (deactivateProtection detectedState).bodyFilter = ""
    ∧ (deactivateProtection detectedState).bodyOpacity = ""
    ∧ (deactivateProtection detectedState).bodyPointerEvents = ""
    ∧ (deactivateProtection detectedState).consoleSpamInterval = false
    ∧ (deactivateProtection detectedState).isDevToolsOpen = false
    ∧ (deactivateProtection detectedState).protectionActive = false :=
  C5_deactivation_clears_all detectedState (by decide) (by decide)

/-- C6: the console-spam task is idempotently startable and stoppable:
starting while running is a no-op, stopping while not running is a
no-op, and starting twice leaves exactly one running task, the same as
starting once. -/
theorem C6_spam_idempotent :
    (∀ s : ProtState, s.consoleSpamInterval = true → startConsoleSpam s = s)
    ∧ (∀ s : ProtState, s.consoleSpamInterval = false → stopConsoleSpam s = s)
    ∧ (∀ s : ProtState, startConsoleSpam (startConsoleSpam s) = startConsoleSpam s
        ∧ (startConsoleSpam s).consoleSpamInterval = true) := by
  refine ⟨?_, ?_, ?_⟩
  · intro s h
    simp [startConsoleSpam, h]
  · intro s h
    simp [stopConsoleSpam, h]
  · intro s
    by_cases h : s.consoleSpamInterval = true
    · simp [startConsoleSpam, h]
    · simp only [Bool.not_eq_true] at h
      simp [startConsoleSpam, h]

/-- C6 witness: starting while running and stopping while stopped are
no-ops at concrete states. -/
theorem C6_witness :
    startConsoleSpam detectedState = detectedState
    ∧ stopConsoleSpam initState = initState :=
  ⟨C6_spam_idempotent.1 detectedState rfl, C6_spam_idempotent.2.1 initState rfl⟩

/-- C8: a window-size probe tick measuring an outer minus inner height gap
of 200 while the belief state is closed reports detection: afterwards
the belief state is open, the overlay node is present, and the body
inline styles are blur(8px), opacity 0.3 and pointer-events none. -/
theorem C8_gap_200 :
    ∀ s : ProtState, s.isDevToolsOpen = false →
      (detectByWindowSize 200 0 s).isDevToolsOpen = true
      ∧ 1 ≤ (detectByWindowSize 200 0 s).overlayCount
      ∧ (detectByWindowSize 200 0 s).bodyFilter = "blur(8px)"
      ∧ (detectByWindowSize 200 0 s).bodyOpacity = "0.3"
      ∧ (detectByWindowSize 200 0 s).bodyPointerEvents = "none" := by
  intro s ho
  have e1 : detectByWindowSize 200 0 s = handleDevToolsDetected s := by
    simp only [detectByWindowSize]
    rw [if_pos (Or.inl (by norm_num)), if_neg (by simp [ho])]
  rw [e1]
  have hov := handle_overlayCount s
  rw [ho] at hov
  simp only [Bool.false_eq_true, if_false] at hov
  obtain ⟨f1, f2, f3⟩ := handle_styles s ho
  refine ⟨handle_isOpen s, ?_, f1, f2, f3⟩
  rw [hov]
  split_ifs <;> omega

/-- C8 witness: instantiation at the initial state. -/
theorem C8_witness :
    (detectByWindowSize 200 0 initState).isDevToolsOpen = true
    ∧ 1 ≤ (detectByWindowSize 200 0 initState).overlayCount
    ∧ (detectByWindowSize 200 0 initState).bodyFilter = "blur(8px)"
    ∧ (detectByWindowSize 200 0 initState).bodyOpacity = "0.3"
    ∧ (detectByWindowSize 200 0 initState).bodyPointerEvents = "none" :=
  C8_gap_200 initState rfl

/-- C9 counterexample: the clipboard rewrite in the copy listener has no
guard around it, so when the setData call throws while protection is
active the exception escapes the handler, refuting the claim that every
clipboard write is wrapped in a best-effort guard. -/
theorem C9_counterexample :
    copyHandlerExc true detectedState = Except.error () := rfl

/-- C9 amended: the console calls of the console-spam task and the
clipboard write of the PrintScreen keyup listener are wrapped in
try/catch guards that silently discard failures, so neither handler ever
propagates an exception; the clipboard rewrite of the copy listener is
not guarded. -/
theorem C9_amended_guards :
    (∀ (b : Bool) (s : ProtState), excOk (consoleSpamTickExc b s) = true)
    ∧ (∀ (b : Bool) (k : String) (s : ProtState), excOk (keyupHandlerExc k b s) = true) := by
  constructor
  · intro b s
    cases b <;> simp only [consoleSpamTickExc, tryBlock, fallibleCall] <;>
      split_ifs <;> rfl
  · intro b k s
    cases b <;> simp only [keyupHandlerExc, tryBlock, fallibleCall] <;>
      split_ifs <;> rfl

/-- C10: while protection is inactive the copy listener neither cancels
the default action nor writes the clipboard and leaves the state
unchanged, and the dragstart listener does not prevent drags on
non-image targets. -/
theorem C10_idle_no_interference :
    ∀ (s : ProtState) (tag : String), s.protectionActive = false →
      copyHandler s = (false, none, s)
      ∧ ((tag == "IMG") = false → dragstartHandler tag s = (false, s)) := by
  intro s tag h
  constructor
  · simp [copyHandler, h]
  · intro ht
    simp [dragstartHandler, h, ht]

/-- C10 witness: instantiation at the initial state with a DIV target. -/
theorem C10_witness :
    copyHandler initState = (false, none, initState)
    ∧ dragstartHandler ("DIV") initState = (false, initState) :=
  ⟨(C10_idle_no_interference initState ("DIV") rfl).1,
   (C10_idle_no_interference initState ("DIV") rfl).2 (by decide)⟩

/-- C2: the scan logic of the suspicious-globals probe does report a
detection when a console helper name such as dollar is bound to a
callable value, but the probe is never installed: method lookup for
setupAdvancedProtection resolves to the later definition at line 522,
which does not call blockCommonBypassMethods, so the 2000ms
suspicious-globals interval is absent from the tasks running after
initialisation. -/
theorem C2_global_symbol_probe_dead :
    resolveMethod ("setupAdvancedProtection") = some 522
    ∧ (IntervalTask.globalSymbol ∈ initIntervalTasks → False)
    ∧ (suspiciousVarsScan envConsoleOpen initState).isDevToolsOpen = true := by
  refine ⟨by decide, by decide, by decide⟩

/-- C4: at most one devtools-overlay node ever exists in the document, and
after any event history a window-size probe tick measuring a gap above
the high threshold leaves exactly one overlay node, no matter how often
it fires. -/
theorem C4_overlay_at_most_one :
    (∀ es : List Event, (runEvents initState es).overlayCount ≤ 1)
    ∧ (∀ (es : List Event) (hd wd : Int), hd > 150 →
        (runEvents initState (es ++ [Event.sizeProbe hd wd])).overlayCount = 1) := by
  constructor
  · intro es
    exact (overlayInv_runEvents initState es overlayInv_init).1
  · intro es hd wd hgap
    rw [runEvents_concat]
    obtain ⟨h1, h2⟩ := overlayInv_runEvents initState es overlayInv_init
    simp only [step, detectByWindowSize]
    split_ifs with hA hB hC
    · exact h2 hB
    · exact (handle_overlayInv _ ⟨h1, h2⟩).2
    · omega
    · omega

/-- C4 witness: one probe firing with a gap of 200 from the initial state
leaves exactly one overlay node. -/
theorem C4_witness :
    (runEvents initState ([] ++ [Event.sizeProbe 200 0])).overlayCount = 1 :=
  C4_overlay_at_most_one.2 [] 200 0 (by decide)

/-- C3: from a Detected state, a window-size probe tick measuring both
gaps below 100 followed by the scheduled re-check firing with both gaps
still below 100 clears the belief state, removes the overlay, removes
the injected body styling and the active-protection style, and cancels
the console-spam task; moreover the re-check firing is the only event
that ever clears an open belief state, and the re-check is only ever
scheduled by a window-size probe tick in the Detected state with both
gaps below 100. -/
theorem C3_detected_to_idle :
    (∀ (s : ProtState) (h1 w1 h2 w2 : Int),
        s.isDevToolsOpen = true → s.overlayCount ≤ 1 → s.activeStyleCount ≤ 1 →
        h1 < 100 → w1 < 100 → h2 < 100 → w2 < 100 →
        (runEvents s [Event.sizeProbe h1 w1, Event.recheckFire h2 w2]).isDevToolsOpen = false
        ∧ (runEvents s [Event.sizeProbe h1 w1, Event.recheckFire h2 w2]).protectionActive = false
        ∧ (runEvents s [Event.sizeProbe h1 w1, Event.recheckFire h2 w2]).overlayCount = 0
        ∧ (runEvents s [Event.sizeProbe h1 w1, Event.recheckFire h2 w2]).activeStyleCount = 0
        ∧ (runEvents s [Event.sizeProbe h1 w1, Event.recheckFire h2 w2]).consoleSpamInterval = false
        ∧ (runEvents s [Event.sizeProbe h1 w1, Event.recheckFire h2 w2]).bodyFilter = ""
        ∧ (runEvents s [Event.sizeProbe h1 w1, Event.recheckFire h2 w2]).bodyOpacity = ""
        ∧ (runEvents s [Event.sizeProbe h1 w1, Event.recheckFire h2 w2]).bodyPointerEvents = "")
    ∧ (∀ (s : ProtState) (e : Event), s.isDevToolsOpen = true →
        (step s e).isDevToolsOpen = false →
        ∃ hd wd : Int, e = Event.recheckFire hd wd
          ∧ s.recheckPending = true ∧ hd < 100 ∧ wd < 100)
    ∧ (∀ (s : ProtState) (e : Event), s.recheckPending = false →
        (step s e).recheckPending = true →
        ∃ hd wd : Int, e = Event.sizeProbe hd wd
          ∧ s.isDevToolsOpen = true ∧ hd < 100 ∧ wd < 100) := by
  refine ⟨?_, ?_, ?_⟩
  · intro s h1 w1 h2 w2 ho hov hst hh1 hw1 hh2 hw2
    have e1 : step s (Event.sizeProbe h1 w1) = { s with recheckPending := true } := by
      simp only [step, detectByWindowSize]
      rw [if_neg (by omega), if_pos ⟨ho, hh1, hw1⟩]
    have e2 : runEvents s [Event.sizeProbe h1 w1, Event.recheckFire h2 w2] =
        step { s with recheckPending := true } (Event.recheckFire h2 w2) := by
      simp only [runEvents, List.foldl]
      rw [e1]
    rw [e2]
    simp only [step, checkIfReallyClosedFire]
    rw [if_pos trivial, if_pos ⟨hh2, hw2⟩]
    refine ⟨rfl, rfl, ?_, ?_, rfl, rfl, rfl, rfl⟩
    · show s.overlayCount - 1 = 0
      omega
    · show s.activeStyleCount - 1 = 0
      omega
  · intro s e ho hc
    cases e with
    | keydown k =>
        exfalso
        simp only [step, keydownHandler] at hc
        split_ifs at hc with hb
        · rw [handle_of_open s ho] at hc
          simp [ho] at hc
        · simp [ho] at hc
    | contextmenu =>
        exfalso
        simp only [step, contextmenuHandler] at hc
        rw [handle_of_open s ho] at hc
        simp [ho] at hc
    | mousedown b =>
        exfalso
        simp only [step, mousedownHandler] at hc
        split_ifs at hc <;> simp [ho] at hc
    | sizeProbe hd wd =>
        exfalso
        simp only [step, detectByWindowSize] at hc
        split_ifs at hc <;> simp_all
    | recheckFire hd wd =>
        refine ⟨hd, wd, rfl, ?_⟩
        simp only [step] at hc
        split_ifs at hc with hp
        · simp only [checkIfReallyClosedFire] at hc
          split_ifs at hc with hq
          · exact ⟨hp, hq.1, hq.2⟩
          · simp [ho] at hc
        · simp [ho] at hc
    | consoleProbe b =>
        exfalso
        simp only [step, detectByConsole] at hc
        split_ifs at hc with hb
        · rw [ho] at hb
          simp at hb
        · simp [ho] at hc
    | timingProbe t =>
        exfalso
        simp only [step, detectByTiming] at hc
        split_ifs at hc with hb
        · rw [ho] at hb
          simp at hb
        · simp [ho] at hc
    | mutation =>
        exfalso
        simp only [step, mutationObserved] at hc
        rw [handle_of_open s ho] at hc
        simp [ho] at hc
    | spamTick =>
        exfalso
        simp only [step, consoleSpamTick] at hc
        split_ifs at hc <;> simp [ho] at hc
    | dragstart tag =>
        exfalso
        simp only [step, dragstartHandler] at hc
        split_ifs at hc <;> simp [ho] at hc
    | copyEvent =>
        exfalso
        simp only [step, copyHandler] at hc
        split_ifs at hc <;> simp [ho] at hc
    | beforeprint =>
        exfalso
        simp only [step, beforeprintHandler, showWarning] at hc
        split_ifs at hc <;> simp [ho] at hc
    | keyup k =>
        exfalso
        simp only [step, keyupHandler] at hc
        split_ifs at hc with hk
        · rw [handle_of_open s ho] at hc
          simp [ho] at hc
        · simp [ho] at hc
  · intro s e hp hc
    cases e with
    | keydown k =>
        exfalso
        simp only [step, keydownHandler] at hc
        split_ifs at hc with hb
        · rw [handle_recheckPending s] at hc
          simp [hp] at hc
        · simp [hp] at hc
    | contextmenu =>
        exfalso
        simp only [step, contextmenuHandler] at hc
        rw [handle_recheckPending s] at hc
        simp [hp] at hc
    | mousedown b =>
        exfalso
        simp only [step, mousedownHandler] at hc
        split_ifs at hc <;> simp [hp] at hc
    | sizeProbe hd wd =>
        refine ⟨hd, wd, rfl, ?_⟩
        simp only [step, detectByWindowSize] at hc
        split_ifs at hc with hA hB hC
        · simp [hp] at hc
        · rw [handle_recheckPending s] at hc
          simp [hp] at hc
        · exact ⟨hC.1, hC.2.1, hC.2.2⟩
        · simp [hp] at hc
    | recheckFire hd wd =>
        exfalso
        simp only [step] at hc
        split_ifs at hc with hq
        · simp [hq] at hp
        · simp [hp] at hc
    | consoleProbe b =>
        exfalso
        simp only [step, detectByConsole] at hc
        split_ifs at hc with hb
        · rw [handle_recheckPending s] at hc
          simp [hp] at hc
        · simp [hp] at hc
    | timingProbe t =>
        exfalso
        simp only [step, detectByTiming] at hc
        split_ifs at hc with hb
        · rw [handle_recheckPending s] at hc
          simp [hp] at hc
        · simp [hp] at hc
    | mutation =>
        exfalso
        simp only [step, mutationObserved] at hc
        rw [handle_recheckPending s] at hc
        simp [hp] at hc
    | spamTick =>
        exfalso
        simp only [step, consoleSpamTick] at hc
        split_ifs at hc <;> simp [hp] at hc
    | dragstart tag =>
        exfalso
        simp only [step, dragstartHandler] at hc
        split_ifs at hc <;> simp [hp] at hc
    | copyEvent =>
        exfalso
        simp only [step, copyHandler] at hc
        split_ifs at hc <;> simp [hp] at hc
    | beforeprint =>
        exfalso
        simp only [step, beforeprintHandler, showWarning] at hc
        split_ifs at hc <;> simp [hp] at hc
    | keyup k =>
        exfalso
        simp only [step, keyupHandler] at hc
        split_ifs at hc with hk
        · rw [handle_recheckPending s] at hc
          simp [hp] at hc
        · simp [hp] at hc

/-- C3 witness: from the representative Detected state, a probe tick with
both gaps 0 followed by the re-check with both gaps 0 returns the system
to idle with every restriction removed. -/
theorem C3_witness :
    (runEvents detectedState [Event.sizeProbe 0 0, Event.recheckFire 0 0]).isDevToolsOpen = false
    ∧ (runEvents detectedState [Event.sizeProbe 0 0, Event.recheckFire 0 0]).protectionActive = false
    ∧ (runEvents detectedState [Event.sizeProbe 0 0, Event.recheckFire 0 0]).overlayCount = 0
    ∧ (runEvents detectedState [Event.sizeProbe 0 0, Event.recheckFire 0 0]).activeStyleCount = 0
    ∧ (runEvents detectedState [Event.sizeProbe 0 0, Event.recheckFire 0 0]).consoleSpamInterval = false
    ∧ (runEvents detectedState [Event.sizeProbe 0 0, Event.recheckFire 0 0]).bodyFilter = ""
    ∧ (runEvents detectedState [Event.sizeProbe 0 0, Event.recheckFire 0 0]).bodyOpacity = ""
    ∧ (runEvents detectedState [Event.sizeProbe 0 0, Event.recheckFire 0 0]).bodyPointerEvents = "" :=
  C3_detected_to_idle.1 detectedState 0 0 0 0 rfl (by decide) (by decide)
    (by decide) (by decide) (by decide) (by decide)

/-- C7 counterexample: from the representative Detected state the
detection entry point is the identity, yet the re-check firing changes
the belief state from open to closed, so a belief-state transition
happens without going through the detection entry point, refuting the
claim that all belief-state transitions do. -/
theorem C7_counterexample :
    detectedState.isDevToolsOpen = true
    ∧ handleDevToolsDetected detectedState = detectedState
    ∧ (step detectedState (Event.recheckFire 0 0)).isDevToolsOpen = false := by
  refine ⟨rfl, by decide, by decide⟩

/-- C7 amended: transitions of the belief state to open happen only
through the single detection entry point, and that entry point is
re-entrant safe: while the belief state is already open a call to it is
a no-op, leaving state, DOM counts and styles unchanged; the transition
back to closed goes through the deactivation path instead. -/
theorem C7_amended_entry_point :
    (∀ s : ProtState, s.isDevToolsOpen = true → handleDevToolsDetected s = s)
    ∧ (∀ (s : ProtState) (e : Event), (step s e).isDevToolsOpen = true →
        s.isDevToolsOpen = true ∨ step s e = handleDevToolsDetected s) := by
  constructor
  · exact handle_of_open
  · intro s e hc
    cases e with
    | keydown k =>
        simp only [step, keydownHandler]
        simp only [step, keydownHandler] at hc
        split_ifs with hb
        · exact Or.inr rfl
        · rw [if_neg hb] at hc
          exact Or.inl hc
    | contextmenu =>
        exact Or.inr rfl
    | mousedown b =>
        simp only [step, mousedownHandler] at hc
        split_ifs at hc <;> exact Or.inl hc
    | sizeProbe hd wd =>
        simp only [step, detectByWindowSize]
        simp only [step, detectByWindowSize] at hc
        split_ifs with hA hB hC
        · rw [if_pos hA, if_pos hB] at hc
          exact Or.inl hc
        · exact Or.inr rfl
        · exact Or.inl hC.1
        · rw [if_neg hA, if_neg hC] at hc
          exact Or.inl hc
    | recheckFire hd wd =>
        simp only [step] at hc
        split_ifs at hc with hp
        · simp only [checkIfReallyClosedFire] at hc
          split_ifs at hc with hq
          · simp [deactivateProtection] at hc
          · simp at hc
            exact Or.inl hc
        · exact Or.inl hc
    | consoleProbe b =>
        simp only [step, detectByConsole]
        simp only [step, detectByConsole] at hc
        split_ifs with hb
        · exact Or.inr rfl
        · rw [if_neg hb] at hc
          exact Or.inl hc
    | timingProbe t =>
        simp only [step, detectByTiming]
        simp only [step, detectByTiming] at hc
        split_ifs with hb
        · exact Or.inr rfl
        · rw [if_neg hb] at hc
          exact Or.inl hc
    | mutation =>
        exact Or.inr rfl
    | spamTick =>
        simp only [step, consoleSpamTick] at hc
        split_ifs at hc <;> exact Or.inl hc
    | dragstart tag =>
        simp only [step, dragstartHandler] at hc
        split_ifs at hc <;> exact Or.inl hc
    | copyEvent =>
        simp only [step, copyHandler] at hc
        split_ifs at hc <;> exact Or.inl hc
    | beforeprint =>
        simp only [step, beforeprintHandler, showWarning] at hc
        split_ifs at hc <;> exact Or.inl hc
    | keyup k =>
        simp only [step, keyupHandler]
        simp only [step, keyupHandler] at hc
        split_ifs with hk
        · exact Or.inr rfl
        · rw [if_neg hk] at hc
          exact Or.inl hc

/-- C7 witness: the entry point is a no-op at the representative Detected
state. -/
theorem C7_witness :
    handleDevToolsDetected detectedState = detectedState :=
  C7_amended_entry_point.1 detectedState rfl
